import Mathlib

/-!
Verification of the DNS record-list endpoint of the tencent-sdk-rust
repository (`src/services/dns/record_list.rs`), against its
natural-language specification.

The embedding models `serde_json::Value` as the inductive `Json`, JSON
objects as association lists, the request struct `DomainRecordList`
with its fluent builder methods, the `Endpoint` accessor methods
(`service`, `action`, `version`, `region`, `payload`), and the serde
`Deserialize` derivations for the response types as explicit decoders
returning `Except String _` (failure = serde decode error).
-/

namespace TencentDns

/-- Model of `serde_json::Value`. All numbers appearing in this endpoint are
unsigned integers (`u32`/`u64`), modelled as `Nat`. Objects are association
lists of key/value pairs. -/
inductive Json where
  | null : Json
  | bool : Bool → Json
  | num : Nat → Json
  | str : String → Json
  | arr : List Json → Json
  | obj : List (String × Json) → Json

/-- Field lookup in a JSON object (first matching key), modelling both
serde field access and `Value` map lookup. -/
def jLookup (o : List (String × Json)) (k : String) : Option Json :=
  match o with
  | [] => none
  | (k₁, v) :: rest => if k₁ = k then some v else jLookup rest k

/-- Insert-or-replace of a key in a JSON object, modelling the
`payload["Key"] = json!(v)` index assignment of `serde_json`. -/
def jSet (o : List (String × Json)) (k : String) (v : Json) : List (String × Json) :=
  match o with
  | [] => [(k, v)]
  | (k₁, v₁) :: rest => if k₁ = k then (k, v) :: rest else (k₁, v₁) :: jSet rest k v

/-- One `if let Some(x) = field { payload[key] = json!(x) }` step of
`DomainRecordList::payload`: set the key when the optional field is set,
leave the payload unchanged otherwise. -/
def optStep (p : List (String × Json)) (k : String) (v : Option Json) :
    List (String × Json) :=
  match v with
  | some j => jSet p k j
  | none => p

/-- `struct RecordListItem` (one DNS record of the list response); field for
field from the Rust struct, `Option` for the serde-optional fields. -/
structure RecordListItem where
  record_id : Nat
  value : String
  status : String
  updated_on : String
  name : String
  line : String
  line_id : String
  record_type : String
  weight : Option Nat
  monitor_status : Option String
  remark : Option String
  ttl : Nat
  mx : Option Nat
  default_ns : Bool
  deriving DecidableEq

/-- `struct RecordCountInfo`. -/
structure RecordCountInfo where
  subdomain_count : Nat
  list_count : Nat
  total_count : Nat
  deriving DecidableEq

/-- `struct DomainRecordListResult` (the inner `Response` object). -/
structure DomainRecordListResult where
  record_count_info : RecordCountInfo
  record_list : List RecordListItem
  request_id : String
  deriving DecidableEq

/-- `struct DomainRecordListResponse` (the outer envelope). -/
structure DomainRecordListResponse where
  response : DomainRecordListResult
  deriving DecidableEq

/-- `struct DomainRecordList` — the request builder. The borrowed `&str`
fields are modelled as `String`, `u64`/`u32` as `Nat`. -/
structure DomainRecordList where
  domain : String
  domain_id : Option Nat
  subdomain : Option String
  record_type : Option String
  record_line : Option String
  record_line_id : Option String
  group_id : Option Nat
  keyword : Option String
  sort_field : Option String
  sort_type : Option String
  offset : Option Nat
  limit : Option Nat
  deriving DecidableEq

/-- `DomainRecordList::new`: required domain, every optional field unset. -/
def DomainRecordList.new (domain : String) : DomainRecordList :=
  { domain := domain
    domain_id := none
    subdomain := none
    record_type := none
    record_line := none
    record_line_id := none
    group_id := none
    keyword := none
    sort_field := none
    sort_type := none
    offset := none
    limit := none }

/-- `DomainRecordList::with_domain_id`. -/
def DomainRecordList.with_domain_id (r : DomainRecordList) (v : Nat) : DomainRecordList :=
  { r with domain_id := some v }

/-- `DomainRecordList::with_subdomain`. -/
def DomainRecordList.with_subdomain (r : DomainRecordList) (v : String) : DomainRecordList :=
  { r with subdomain := some v }

/-- `DomainRecordList::with_record_type`. -/
def DomainRecordList.with_record_type (r : DomainRecordList) (v : String) : DomainRecordList :=
  { r with record_type := some v }

/-- `DomainRecordList::with_record_line`. -/
def DomainRecordList.with_record_line (r : DomainRecordList) (v : String) : DomainRecordList :=
  { r with record_line := some v }

/-- `DomainRecordList::with_record_line_id`. -/
def DomainRecordList.with_record_line_id (r : DomainRecordList) (v : String) : DomainRecordList :=
  { r with record_line_id := some v }

/-- `DomainRecordList::with_group_id`. -/
def DomainRecordList.with_group_id (r : DomainRecordList) (v : Nat) : DomainRecordList :=
  { r with group_id := some v }

/-- `DomainRecordList::with_keyword`. -/
def DomainRecordList.with_keyword (r : DomainRecordList) (v : String) : DomainRecordList :=
  { r with keyword := some v }

/-- `DomainRecordList::with_sort_field`. -/
def DomainRecordList.with_sort_field (r : DomainRecordList) (v : String) : DomainRecordList :=
  { r with sort_field := some v }

/-- `DomainRecordList::with_sort_type`. -/
def DomainRecordList.with_sort_type (r : DomainRecordList) (v : String) : DomainRecordList :=
  { r with sort_type := some v }

/-- `DomainRecordList::with_offset`. -/
def DomainRecordList.with_offset (r : DomainRecordList) (v : Nat) : DomainRecordList :=
  { r with offset := some v }

/-- `DomainRecordList::with_limit`. -/
def DomainRecordList.with_limit (r : DomainRecordList) (v : Nat) : DomainRecordList :=
  { r with limit := some v }

/-- `Endpoint::service` for `DomainRecordList`. -/
def DomainRecordList.service (_ : DomainRecordList) : String := "dnspod"

/-- `Endpoint::action` for `DomainRecordList`. -/
def DomainRecordList.action (_ : DomainRecordList) : String := "DescribeRecordList"

/-- `Endpoint::version` for `DomainRecordList`. -/
def DomainRecordList.version (_ : DomainRecordList) : String := "2021-03-23"

/-- `Endpoint::region` for `DomainRecordList`: `None` (no region). -/
def DomainRecordList.region (_ : DomainRecordList) : Option String := none

/-- `Endpoint::payload` for `DomainRecordList`: starts from
`json!({"Domain": self.domain})` and applies one `optStep` per
`if let Some(x) = self.field { payload["Key"] = json!(x) }` block, in the
order of the Rust source. -/
def DomainRecordList.payload (r : DomainRecordList) : List (String × Json) :=
  optStep (optStep (optStep (optStep (optStep (optStep (optStep (optStep (optStep (optStep (optStep
    [("Domain", Json.str r.domain)]
    "DomainId" (r.domain_id.map Json.num))
    "Subdomain" (r.subdomain.map Json.str))
    "RecordType" (r.record_type.map Json.str))
    "RecordLine" (r.record_line.map Json.str))
    "RecordLineId" (r.record_line_id.map Json.str))
    "GroupId" (r.group_id.map Json.num))
    "Keyword" (r.keyword.map Json.str))
    "SortField" (r.sort_field.map Json.str))
    "SortType" (r.sort_type.map Json.str))
    "Offset" (r.offset.map Json.num))
    "Limit" (r.limit.map Json.num)

/-! ### Response decoding (serde `Deserialize` derivations)

Each `#[derive(Deserialize)]` struct becomes an explicit decoder from
`Json` to the struct, returning `Except.error` (serde decode error) when a
required field is missing or has the wrong shape. Optional (`Option`)
fields decode missing or `null` to `none`. -/

/-- Whether a decode outcome is the error outcome (no value produced). -/
def isErr {α : Type} (x : Except String α) : Bool :=
  match x with
  | Except.error _ => true
  | Except.ok _ => false

/-- Decode a required unsigned-integer field of a JSON object. -/
def reqNat (o : List (String × Json)) (k : String) : Except String Nat :=
  match jLookup o k with
  | some (Json.num n) => Except.ok n
  | _ => Except.error k

/-- Decode a required string field of a JSON object. -/
def reqStr (o : List (String × Json)) (k : String) : Except String String :=
  match jLookup o k with
  | some (Json.str s) => Except.ok s
  | _ => Except.error k

/-- Decode a required boolean field of a JSON object. -/
def reqBool (o : List (String × Json)) (k : String) : Except String Bool :=
  match jLookup o k with
  | some (Json.bool b) => Except.ok b
  | _ => Except.error k

/-- Decode an `Option<u32>`-style field: missing or `null` is `none`. -/
def optNatField (o : List (String × Json)) (k : String) : Except String (Option Nat) :=
  match jLookup o k with
  | none => Except.ok none
  | some Json.null => Except.ok none
  | some (Json.num n) => Except.ok (some n)
  | some _ => Except.error k

/-- Decode an `Option<String>`-style field: missing or `null` is `none`. -/
def optStrField (o : List (String × Json)) (k : String) : Except String (Option String) :=
  match jLookup o k with
  | none => Except.ok none
  | some Json.null => Except.ok none
  | some (Json.str s) => Except.ok (some s)
  | some _ => Except.error k

/-- Decoder for `RecordListItem`: all required fields must decode, the
four optional fields may be absent. -/
def decodeItem (j : Json) : Except String RecordListItem :=
  match j with
  | Json.obj o =>
    match reqNat o "RecordId", reqStr o "Value", reqStr o "Status",
          reqStr o "UpdatedOn", reqStr o "Name", reqStr o "Line",
          reqStr o "LineId", reqStr o "Type", optNatField o "Weight",
          optStrField o "MonitorStatus", optStrField o "Remark",
          reqNat o "TTL", optNatField o "MX", reqBool o "DefaultNS" with
    | Except.ok record_id, Except.ok value, Except.ok status,
      Except.ok updated_on, Except.ok name, Except.ok line,
      Except.ok line_id, Except.ok record_type, Except.ok weight,
      Except.ok monitor_status, Except.ok remark,
      Except.ok ttl, Except.ok mx, Except.ok default_ns =>
        Except.ok ⟨record_id, value, status, updated_on, name, line, line_id,
                   record_type, weight, monitor_status, remark, ttl, mx, default_ns⟩
    | _, _, _, _, _, _, _, _, _, _, _, _, _, _ => Except.error "RecordListItem"
  | _ => Except.error "RecordListItem"

/-- Decoder for `RecordCountInfo`. -/
def decodeCountInfo (j : Json) : Except String RecordCountInfo :=
  match j with
  | Json.obj o =>
    match reqNat o "SubdomainCount", reqNat o "ListCount", reqNat o "TotalCount" with
    | Except.ok sc, Except.ok lc, Except.ok tc => Except.ok ⟨sc, lc, tc⟩
    | _, _, _ => Except.error "RecordCountInfo"
  | _ => Except.error "RecordCountInfo"

/-- Decode each element of the `RecordList` array in order, failing if any
element fails (how serde decodes a `Vec<RecordListItem>`). -/
def mapDecode (js : List Json) : Except String (List RecordListItem) :=
  match js with
  | [] => Except.ok []
  | j :: rest =>
    match decodeItem j, mapDecode rest with
    | Except.ok x, Except.ok xs => Except.ok (x :: xs)
    | Except.error e, _ => Except.error e
    | _, Except.error e => Except.error e

/-- Decoder for `DomainRecordListResult` (the inner `Response` object). -/
def decodeResult (j : Json) : Except String DomainRecordListResult :=
  match j with
  | Json.obj o =>
    match jLookup o "RecordCountInfo", jLookup o "RecordList", jLookup o "RequestId" with
    | some cj, some (Json.arr xs), some (Json.str rid) =>
      match decodeCountInfo cj, mapDecode xs with
      | Except.ok ci, Except.ok items => Except.ok ⟨ci, items, rid⟩
      | Except.error e, _ => Except.error e
      | _, Except.error e => Except.error e
    | _, _, _ => Except.error "DomainRecordListResult"
  | _ => Except.error "DomainRecordListResult"

/-- Decoder for `DomainRecordListResponse` (the outer envelope). -/
def decodeResponse (j : Json) : Except String DomainRecordListResponse :=
  match j with
  | Json.obj o =>
    match jLookup o "Response" with
    | some rj =>
      match decodeResult rj with
      | Except.ok res => Except.ok ⟨res⟩
      | Except.error e => Except.error e
    | none => Except.error "Response"
  | _ => Except.error "DomainRecordListResponse"

/-! ### Concrete test fixtures (the JSON documents of the unit tests) -/

/-- First record of `test_deserialize_record_list_response`: all optional
fields present. -/
def exampleRecord1 : Json :=
  Json.obj [("RecordId", Json.num 1), ("Value", Json.str "1.1.1.1"),
    ("Status", Json.str "ENABLE"), ("UpdatedOn", Json.str "2021-03-28 11:27:09"),
    ("Name", Json.str "m"), ("Line", Json.str "默认"), ("LineId", Json.str "0"),
    ("Type", Json.str "A"), ("Weight", Json.num 20),
    ("MonitorStatus", Json.str "OK"), ("Remark", Json.str "用于api"),
    ("TTL", Json.num 600), ("MX", Json.num 10), ("DefaultNS", Json.bool true)]

/-- Second record of `test_deserialize_record_list_response`: no optional
fields. -/
def exampleRecord2 : Json :=
  Json.obj [("RecordId", Json.num 2), ("Value", Json.str "2.2.2.2"),
    ("Status", Json.str "ENABLE"), ("UpdatedOn", Json.str "2021-03-28 11:27:10"),
    ("Name", Json.str "www"), ("Line", Json.str "默认"), ("LineId", Json.str "0"),
    ("Type", Json.str "A"), ("TTL", Json.num 600), ("DefaultNS", Json.bool false)]

/-- The `RecordList` array of the example response. -/
def exampleRecords : List Json := [exampleRecord1, exampleRecord2]

/-- The inner `Response` object of the example response. -/
def exampleResultObj : List (String × Json) :=
  [("RecordCountInfo", Json.obj [("SubdomainCount", Json.num 2),
      ("ListCount", Json.num 2), ("TotalCount", Json.num 10)]),
   ("RecordList", Json.arr exampleRecords),
   ("RequestId", Json.str "req-123456")]

/-- The full example List response JSON of
`test_deserialize_record_list_response`. -/
def exampleListJson : Json := Json.obj [("Response", Json.obj exampleResultObj)]

/-- The typed value the example response decodes to. -/
def exampleDecodedResult : DomainRecordListResult :=
  { record_count_info := ⟨2, 2, 10⟩
    record_list :=
      [⟨1, "1.1.1.1", "ENABLE", "2021-03-28 11:27:09", "m", "默认", "0", "A",
        some 20, some "OK", some "用于api", 600, some 10, true⟩,
       ⟨2, "2.2.2.2", "ENABLE", "2021-03-28 11:27:10", "www", "默认", "0", "A",
        none, none, none, 600, none, false⟩]
    request_id := "req-123456" }

/-- The single record of `test_deserialize_minimal_record`: only required
fields. -/
def minimalRecordJson : Json :=
  Json.obj [("RecordId", Json.num 123), ("Value", Json.str "example.com"),
    ("Status", Json.str "ENABLE"), ("UpdatedOn", Json.str "2021-03-28 11:27:09"),
    ("Name", Json.str "@"), ("Line", Json.str "默认"), ("LineId", Json.str "0"),
    ("Type", Json.str "CNAME"), ("TTL", Json.num 600), ("DefaultNS", Json.bool false)]

/-- The minimal single-record response JSON of
`test_deserialize_minimal_record`. -/
def minimalListJson : Json :=
  Json.obj [("Response", Json.obj
    [("RecordCountInfo", Json.obj [("SubdomainCount", Json.num 1),
        ("ListCount", Json.num 1), ("TotalCount", Json.num 1)]),
     ("RecordList", Json.arr [minimalRecordJson]),
     ("RequestId", Json.str "req-789012")])]

/-- The minimal record with a present-but-empty `MonitorStatus`, used to
show that an empty value is distinguishable from an absent one. -/
def emptyMonitorRecordJson : Json :=
  Json.obj [("RecordId", Json.num 123), ("Value", Json.str "example.com"),
    ("Status", Json.str "ENABLE"), ("UpdatedOn", Json.str "2021-03-28 11:27:09"),
    ("Name", Json.str "@"), ("Line", Json.str "默认"), ("LineId", Json.str "0"),
    ("Type", Json.str "CNAME"), ("TTL", Json.num 600),
    ("DefaultNS", Json.bool false), ("MonitorStatus", Json.str "")]

/-- A count-info object whose `ListCount` exceeds its `TotalCount`. -/
def countCexObj : List (String × Json) :=
  [("SubdomainCount", Json.num 1), ("ListCount", Json.num 5),
   ("TotalCount", Json.num 1)]

/-! ### Lookup lemmas for the payload builder -/

theorem jLookup_jSet_self (o : List (String × Json)) (k : String) (v : Json) :
    jLookup (jSet o k v) k = some v := by
  induction o with
  | nil => simp [jSet, jLookup]
  | cons hd tl ih =>
      obtain ⟨k₁, v₁⟩ := hd
      by_cases h : k₁ = k <;> simp [jSet, jLookup, h, ih]

theorem jLookup_jSet_other (o : List (String × Json)) (k₁ k : String) (v : Json)
    (h : k₁ ≠ k) : jLookup (jSet o k₁ v) k = jLookup o k := by
  induction o with
  | nil => simp [jSet, jLookup, h]
  | cons hd tl ih =>
      obtain ⟨k₂, v₂⟩ := hd
      by_cases h₂ : k₂ = k₁
      · subst h₂; simp [jSet, jLookup, h]
      · simp [jSet, jLookup, h₂, ih]

theorem jLookup_optStep (p : List (String × Json)) (k₁ : String) (v : Option Json)
    (k : String) :
    jLookup (optStep p k₁ v) k =
      if k₁ = k then v.elim (jLookup p k) some else jLookup p k := by
  by_cases h : k₁ = k
  · subst h
    cases v with
    | none => simp [optStep]
    | some j => simp [optStep, jLookup_jSet_self]
  · cases v with
    | none => simp [optStep, h]
    | some j => simp [optStep, h, jLookup_jSet_other _ _ _ _ h]

theorem payload_lookup_domain (r : DomainRecordList) :
    jLookup r.payload "Domain" = some (Json.str r.domain) := by
  simp [DomainRecordList.payload, jLookup_optStep, jLookup]

theorem payload_lookup_domain_id (r : DomainRecordList) :
    jLookup r.payload "DomainId" = r.domain_id.map Json.num := by
  simp [DomainRecordList.payload, jLookup_optStep, jLookup]
  cases r.domain_id <;> simp

theorem payload_lookup_subdomain (r : DomainRecordList) :
    jLookup r.payload "Subdomain" = r.subdomain.map Json.str := by
  simp [DomainRecordList.payload, jLookup_optStep, jLookup]
  cases r.subdomain <;> simp

theorem payload_lookup_record_type (r : DomainRecordList) :
    jLookup r.payload "RecordType" = r.record_type.map Json.str := by
  simp [DomainRecordList.payload, jLookup_optStep, jLookup]
  cases r.record_type <;> simp

theorem payload_lookup_record_line (r : DomainRecordList) :
    jLookup r.payload "RecordLine" = r.record_line.map Json.str := by
  simp [DomainRecordList.payload, jLookup_optStep, jLookup]
  cases r.record_line <;> simp

theorem payload_lookup_record_line_id (r : DomainRecordList) :
    jLookup r.payload "RecordLineId" = r.record_line_id.map Json.str := by
  simp [DomainRecordList.payload, jLookup_optStep, jLookup]
  cases r.record_line_id <;> simp

theorem payload_lookup_group_id (r : DomainRecordList) :
    jLookup r.payload "GroupId" = r.group_id.map Json.num := by
  simp [DomainRecordList.payload, jLookup_optStep, jLookup]
  cases r.group_id <;> simp

theorem payload_lookup_keyword (r : DomainRecordList) :
    jLookup r.payload "Keyword" = r.keyword.map Json.str := by
  simp [DomainRecordList.payload, jLookup_optStep, jLookup]
  cases r.keyword <;> simp

theorem payload_lookup_sort_field (r : DomainRecordList) :
    jLookup r.payload "SortField" = r.sort_field.map Json.str := by
  simp [DomainRecordList.payload, jLookup_optStep, jLookup]
  cases r.sort_field <;> simp

theorem payload_lookup_sort_type (r : DomainRecordList) :
    jLookup r.payload "SortType" = r.sort_type.map Json.str := by
  simp [DomainRecordList.payload, jLookup_optStep, jLookup]
  cases r.sort_type <;> simp

theorem payload_lookup_offset (r : DomainRecordList) :
    jLookup r.payload "Offset" = r.offset.map Json.num := by
  simp [DomainRecordList.payload, jLookup_optStep, jLookup]
  cases r.offset <;> simp

theorem payload_lookup_limit (r : DomainRecordList) :
    jLookup r.payload "Limit" = r.limit.map Json.num := by
  simp [DomainRecordList.payload, jLookup_optStep, jLookup]
  cases r.limit <;> simp

/-! ### Reading parameters back from a payload (round trip) -/

/-- Read a numeric value back from a payload key. -/
def getNatKey (p : List (String × Json)) (k : String) : Option Nat :=
  match jLookup p k with
  | some (Json.num n) => some n
  | _ => none

/-- Read a string value back from a payload key. -/
def getStrKey (p : List (String × Json)) (k : String) : Option String :=
  match jLookup p k with
  | some (Json.str s) => some s
  | _ => none

/-- Reconstruct the request parameters from a payload: the required
`Domain` value plus each optional field read back from its provider key. -/
def paramsOfPayload (p : List (String × Json)) : Option DomainRecordList :=
  (getStrKey p "Domain").map (fun d =>
    { domain := d
      domain_id := getNatKey p "DomainId"
      subdomain := getStrKey p "Subdomain"
      record_type := getStrKey p "RecordType"
      record_line := getStrKey p "RecordLine"
      record_line_id := getStrKey p "RecordLineId"
      group_id := getNatKey p "GroupId"
      keyword := getStrKey p "Keyword"
      sort_field := getStrKey p "SortField"
      sort_type := getStrKey p "SortType"
      offset := getNatKey p "Offset"
      limit := getNatKey p "Limit" })

theorem getStrKey_payload_domain (r : DomainRecordList) :
    getStrKey r.payload "Domain" = some r.domain := by
  simp [getStrKey, payload_lookup_domain]

theorem getNatKey_payload_domain_id (r : DomainRecordList) :
    getNatKey r.payload "DomainId" = r.domain_id := by
  rw [getNatKey, payload_lookup_domain_id]; cases r.domain_id <;> rfl

theorem getStrKey_payload_subdomain (r : DomainRecordList) :
    getStrKey r.payload "Subdomain" = r.subdomain := by
  rw [getStrKey, payload_lookup_subdomain]; cases r.subdomain <;> rfl

theorem getStrKey_payload_record_type (r : DomainRecordList) :
    getStrKey r.payload "RecordType" = r.record_type := by
  rw [getStrKey, payload_lookup_record_type]; cases r.record_type <;> rfl

theorem getStrKey_payload_record_line (r : DomainRecordList) :
    getStrKey r.payload "RecordLine" = r.record_line := by
  rw [getStrKey, payload_lookup_record_line]; cases r.record_line <;> rfl

theorem getStrKey_payload_record_line_id (r : DomainRecordList) :
    getStrKey r.payload "RecordLineId" = r.record_line_id := by
  rw [getStrKey, payload_lookup_record_line_id]; cases r.record_line_id <;> rfl

theorem getNatKey_payload_group_id (r : DomainRecordList) :
    getNatKey r.payload "GroupId" = r.group_id := by
  rw [getNatKey, payload_lookup_group_id]; cases r.group_id <;> rfl

theorem getStrKey_payload_keyword (r : DomainRecordList) :
    getStrKey r.payload "Keyword" = r.keyword := by
  rw [getStrKey, payload_lookup_keyword]; cases r.keyword <;> rfl

theorem getStrKey_payload_sort_field (r : DomainRecordList) :
    getStrKey r.payload "SortField" = r.sort_field := by
  rw [getStrKey, payload_lookup_sort_field]; cases r.sort_field <;> rfl

theorem getStrKey_payload_sort_type (r : DomainRecordList) :
    getStrKey r.payload "SortType" = r.sort_type := by
  rw [getStrKey, payload_lookup_sort_type]; cases r.sort_type <;> rfl

theorem getNatKey_payload_offset (r : DomainRecordList) :
    getNatKey r.payload "Offset" = r.offset := by
  rw [getNatKey, payload_lookup_offset]; cases r.offset <;> rfl

theorem getNatKey_payload_limit (r : DomainRecordList) :
    getNatKey r.payload "Limit" = r.limit := by
  rw [getNatKey, payload_lookup_limit]; cases r.limit <;> rfl

/-! ### Decoder success implies required-field presence -/

theorem reqNat_ok_present {o : List (String × Json)} {k : String} {n : Nat}
    (h : reqNat o k = Except.ok n) : jLookup o k ≠ none := by
  rw [reqNat] at h
  split at h <;> simp_all

theorem reqStr_ok_present {o : List (String × Json)} {k : String} {s : String}
    (h : reqStr o k = Except.ok s) : jLookup o k ≠ none := by
  rw [reqStr] at h
  split at h <;> simp_all

theorem reqBool_ok_present {o : List (String × Json)} {k : String} {b : Bool}
    (h : reqBool o k = Except.ok b) : jLookup o k ≠ none := by
  rw [reqBool] at h
  split at h <;> simp_all

theorem decodeItem_ok_present {o : List (String × Json)} {it : RecordListItem}
    (h : decodeItem (Json.obj o) = Except.ok it) :
    jLookup o "RecordId" ≠ none ∧ jLookup o "Value" ≠ none
  ∧ jLookup o "Status" ≠ none ∧ jLookup o "UpdatedOn" ≠ none
  ∧ jLookup o "Name" ≠ none ∧ jLookup o "Line" ≠ none
  ∧ jLookup o "LineId" ≠ none ∧ jLookup o "Type" ≠ none
  ∧ jLookup o "TTL" ≠ none ∧ jLookup o "DefaultNS" ≠ none := by
  rw [decodeItem] at h
  split at h
  · rename_i h₁ h₂ h₃ h₄ h₅ h₆ h₇ h₈ h₉ h₁₀ h₁₁ h₁₂ h₁₃ h₁₄
    exact ⟨reqNat_ok_present h₁, reqStr_ok_present h₂, reqStr_ok_present h₃,
      reqStr_ok_present h₄, reqStr_ok_present h₅, reqStr_ok_present h₆,
      reqStr_ok_present h₇, reqStr_ok_present h₈, reqNat_ok_present h₁₂,
      reqBool_ok_present h₁₄⟩
  · simp_all

theorem decodeCountInfo_ok_present {o : List (String × Json)} {ci : RecordCountInfo}
    (h : decodeCountInfo (Json.obj o) = Except.ok ci) :
    jLookup o "SubdomainCount" ≠ none ∧ jLookup o "ListCount" ≠ none
  ∧ jLookup o "TotalCount" ≠ none := by
  rw [decodeCountInfo] at h
  split at h
  · rename_i h₁ h₂ h₃
    exact ⟨reqNat_ok_present h₁, reqNat_ok_present h₂, reqNat_ok_present h₃⟩
  · simp_all

theorem decodeResult_ok_present {o : List (String × Json)} {res : DomainRecordListResult}
    (h : decodeResult (Json.obj o) = Except.ok res) :
    jLookup o "RecordCountInfo" ≠ none ∧ jLookup o "RecordList" ≠ none
  ∧ jLookup o "RequestId" ≠ none := by
  rw [decodeResult] at h
  split at h
  · rename_i cj xs rid h₁ h₂ h₃
    exact ⟨by simp [h₁], by simp [h₂], by simp [h₃]⟩
  · simp_all

theorem decodeResponse_ok_present {o : List (String × Json)}
    {r : DomainRecordListResponse}
    (h : decodeResponse (Json.obj o) = Except.ok r) :
    jLookup o "Response" ≠ none := by
  rw [decodeResponse] at h
  split at h
  · rename_i rj h₁
    simp [h₁]
  · simp_all

theorem mapDecode_length {js : List Json} {ys : List RecordListItem}
    (h : mapDecode js = Except.ok ys) : ys.length = js.length := by
  induction js generalizing ys with
  | nil =>
      rw [mapDecode] at h
      simp_all
  | cons j rest ih =>
      rw [mapDecode] at h
      split at h
      · rename_i x xs h₁ h₂
        injection h with h
        subst h
        simp [List.length_cons, ih h₂]
      · simp_all
      · simp_all

theorem decodeResult_record_list {o : List (String × Json)} {xs : List Json}
    {res : DomainRecordListResult}
    (h₁ : jLookup o "RecordList" = some (Json.arr xs))
    (h₂ : decodeResult (Json.obj o) = Except.ok res) :
    mapDecode xs = Except.ok res.record_list := by
  rw [decodeResult] at h₂
  split at h₂
  · rename_i cj xs₂ rid hci hrl hrid
    rw [h₁] at hrl
    obtain rfl : xs = xs₂ := by injection hrl with hrl₂; injection hrl₂
    split at h₂
    · rename_i ci items hdc hmd
      obtain rfl : DomainRecordListResult.mk ci items rid = res := by injection h₂
      exact hmd
    · simp_all
    · simp_all
  · simp_all

/-! ### Claim theorems -/

/-- C1: for every `DomainRecordList` instance, `action()` returns the fixed
string "DescribeRecordList" — which is not the "DomainRecordList" string
that `test_endpoint_implementation` expects. -/
theorem action_constant (r : DomainRecordList) :
    r.action = "DescribeRecordList" ∧ r.action ≠ "DomainRecordList" := by
  refine ⟨rfl, ?_⟩
  show ("DescribeRecordList" : String) ≠ "DomainRecordList"
  decide

/-- C2: the payload maps each optional field's provider key to exactly the
field's value when it is set and to nothing when it is unset (so the key
appears iff the field was set), and the required key `Domain` always maps
to the domain value. -/
theorem payload_contains_key_iff_field_set (r : DomainRecordList) :
    jLookup r.payload "Domain" = some (Json.str r.domain)
  ∧ jLookup r.payload "DomainId" = r.domain_id.map Json.num
  ∧ jLookup r.payload "Subdomain" = r.subdomain.map Json.str
  ∧ jLookup r.payload "RecordType" = r.record_type.map Json.str
  ∧ jLookup r.payload "RecordLine" = r.record_line.map Json.str
  ∧ jLookup r.payload "RecordLineId" = r.record_line_id.map Json.str
  ∧ jLookup r.payload "GroupId" = r.group_id.map Json.num
  ∧ jLookup r.payload "Keyword" = r.keyword.map Json.str
  ∧ jLookup r.payload "SortField" = r.sort_field.map Json.str
  ∧ jLookup r.payload "SortType" = r.sort_type.map Json.str
  ∧ jLookup r.payload "Offset" = r.offset.map Json.num
  ∧ jLookup r.payload "Limit" = r.limit.map Json.num :=
  ⟨payload_lookup_domain r, payload_lookup_domain_id r, payload_lookup_subdomain r,
   payload_lookup_record_type r, payload_lookup_record_line r,
   payload_lookup_record_line_id r, payload_lookup_group_id r,
   payload_lookup_keyword r, payload_lookup_sort_field r,
   payload_lookup_sort_type r, payload_lookup_offset r, payload_lookup_limit r⟩

/-- C3: reading the parameters back from the payload of any
`DomainRecordList` recovers exactly the parameters it was built with: each
set field under its key, each unset field as absent. -/
theorem payload_roundtrip (r : DomainRecordList) :
    paramsOfPayload r.payload = some r := by
  rw [paramsOfPayload, getStrKey_payload_domain, Option.map_some',
    getNatKey_payload_domain_id, getStrKey_payload_subdomain,
    getStrKey_payload_record_type, getStrKey_payload_record_line,
    getStrKey_payload_record_line_id, getNatKey_payload_group_id,
    getStrKey_payload_keyword, getStrKey_payload_sort_field,
    getStrKey_payload_sort_type, getNatKey_payload_offset,
    getNatKey_payload_limit]

/-- C4: decoding the full example List response succeeds with
`subdomain_count = 2`, `list_count = 2`, `total_count = 10`,
`request_id = "req-123456"`, the first record's optional fields present
(`weight = some 20`, `monitor_status = some "OK"`) and the second record's
optional fields all `none`. -/
theorem decode_example_list_response :
    ∃ r, decodeResponse exampleListJson = Except.ok r
  ∧ r.response.record_count_info.subdomain_count = 2
  ∧ r.response.record_count_info.list_count = 2
  ∧ r.response.record_count_info.total_count = 10
  ∧ r.response.request_id = "req-123456"
  ∧ r.response.record_list.map (fun it => it.weight) = [some 20, none]
  ∧ r.response.record_list.map (fun it => it.monitor_status) = [some "OK", none]
  ∧ r.response.record_list.map (fun it => it.remark) = [some "用于api", none]
  ∧ r.response.record_list.map (fun it => it.mx) = [some 10, none] :=
  ⟨⟨exampleDecodedResult⟩, rfl, rfl, rfl, rfl, rfl, rfl, rfl, rfl, rfl⟩

/-- C5: decoding an object that lacks a required field — `Response` at the
envelope, `RecordCountInfo`/`RecordList`/`RequestId` in the result,
any count field, or any required record field — yields a decode error (so
no partially-populated structure is ever produced: the decoders return
either a complete value or an error). -/
theorem decode_missing_required_field_fails (o : List (String × Json)) (k : String) :
    (k = "Response" → jLookup o k = none →
       isErr (decodeResponse (Json.obj o)) = true)
  ∧ (k ∈ ["RecordCountInfo", "RecordList", "RequestId"] → jLookup o k = none →
       isErr (decodeResult (Json.obj o)) = true)
  ∧ (k ∈ ["SubdomainCount", "ListCount", "TotalCount"] → jLookup o k = none →
       isErr (decodeCountInfo (Json.obj o)) = true)
  ∧ (k ∈ ["RecordId", "Value", "Status", "UpdatedOn", "Name", "Line", "LineId",
          "Type", "TTL", "DefaultNS"] → jLookup o k = none →
       isErr (decodeItem (Json.obj o)) = true) := by
  refine ⟨?_, ?_, ?_, ?_⟩
  · intro hk hnone
    subst hk
    cases hd : decodeResponse (Json.obj o) with
    | error e => rfl
    | ok r => exact absurd hnone (decodeResponse_ok_present hd)
  · intro hk hnone
    cases hd : decodeResult (Json.obj o) with
    | error e => rfl
    | ok res =>
        obtain ⟨h₁, h₂, h₃⟩ := decodeResult_ok_present hd
        simp only [List.mem_cons, List.not_mem_nil, or_false] at hk
        rcases hk with rfl | rfl | rfl
        · exact absurd hnone h₁
        · exact absurd hnone h₂
        · exact absurd hnone h₃
  · intro hk hnone
    cases hd : decodeCountInfo (Json.obj o) with
    | error e => rfl
    | ok ci =>
        obtain ⟨h₁, h₂, h₃⟩ := decodeCountInfo_ok_present hd
        simp only [List.mem_cons, List.not_mem_nil, or_false] at hk
        rcases hk with rfl | rfl | rfl
        · exact absurd hnone h₁
        · exact absurd hnone h₂
        · exact absurd hnone h₃
  · intro hk hnone
    cases hd : decodeItem (Json.obj o) with
    | error e => rfl
    | ok it =>
        obtain ⟨h₁, h₂, h₃, h₄, h₅, h₆, h₇, h₈, h₉, h₁₀⟩ := decodeItem_ok_present hd
        simp only [List.mem_cons, List.not_mem_nil, or_false] at hk
        rcases hk with rfl | rfl | rfl | rfl | rfl | rfl | rfl | rfl | rfl | rfl
        · exact absurd hnone h₁
        · exact absurd hnone h₂
        · exact absurd hnone h₃
        · exact absurd hnone h₄
        · exact absurd hnone h₅
        · exact absurd hnone h₆
        · exact absurd hnone h₇
        · exact absurd hnone h₈
        · exact absurd hnone h₉
        · exact absurd hnone h₁₀

/-- Witness for C5 at the concrete empty object and the key `Response`. -/
theorem decode_missing_required_field_fails_witness :
    isErr (decodeResponse (Json.obj [])) = true :=
  (decode_missing_required_field_fails [] "Response").1 rfl rfl

/-- C6 counterexample: the decoder accepts a count-info object with
`ListCount = 5 > TotalCount = 1`, producing a `RecordCountInfo` that
violates `list_count ≤ total_count`. -/
theorem count_invariant_counterexample :
    ∃ ci, decodeCountInfo (Json.obj countCexObj) = Except.ok ci
      ∧ ¬ (ci.list_count ≤ ci.total_count) :=
  ⟨⟨1, 5, 1⟩, rfl, by decide⟩

/-- C6 amended: a successful decode copies the three counts through
verbatim and enforces no relation between them — in particular
`list_count ≤ total_count` is not checked, so it holds only when the
source JSON already satisfies it. -/
theorem count_info_decode_passthrough (sc lc tc : Nat) :
    decodeCountInfo (Json.obj [("SubdomainCount", Json.num sc),
        ("ListCount", Json.num lc), ("TotalCount", Json.num tc)]) =
      Except.ok ⟨sc, lc, tc⟩ := rfl

/-- C7: for every instance, `service()` is "dnspod", `version()` is
"2021-03-23" and `region()` is the explicit absent value `none`. -/
theorem routing_metadata_constant (r : DomainRecordList) :
    r.service = "dnspod" ∧ r.version = "2021-03-23" ∧ r.region = none :=
  ⟨rfl, rfl, rfl⟩

/-- C8: when a result decodes successfully, its `record_list` is exactly
the element-wise decoding of the source `RecordList` array — same length,
same order, no filtering or reordering. -/
theorem record_list_order_preserved (o : List (String × Json)) (xs : List Json)
    (res : DomainRecordListResult)
    (h₁ : jLookup o "RecordList" = some (Json.arr xs))
    (h₂ : decodeResult (Json.obj o) = Except.ok res) :
    mapDecode xs = Except.ok res.record_list
  ∧ res.record_list.length = xs.length := by
  have hm := decodeResult_record_list h₁ h₂
  exact ⟨hm, mapDecode_length hm⟩

/-- Witness for C8 at the example response object. -/
theorem record_list_order_preserved_witness :
    mapDecode exampleRecords = Except.ok exampleDecodedResult.record_list
  ∧ exampleDecodedResult.record_list.length = exampleRecords.length :=
  record_list_order_preserved exampleResultObj exampleRecords
    exampleDecodedResult rfl rfl

/-- C9: decoding the minimal single-record response succeeds with all four
optional record fields `none`; and a present-but-empty `MonitorStatus`
decodes to `some ""`, which is distinguishable from the absent `none`. -/
theorem decode_minimal_record_optionals_absent :
    (∃ r, decodeResponse minimalListJson = Except.ok r
      ∧ r.response.record_list.map (fun it => it.weight) = [none]
      ∧ r.response.record_list.map (fun it => it.monitor_status) = [none]
      ∧ r.response.record_list.map (fun it => it.remark) = [none]
      ∧ r.response.record_list.map (fun it => it.mx) = [none])
  ∧ (∃ it, decodeItem emptyMonitorRecordJson = Except.ok it
      ∧ it.monitor_status = some "" ∧ it.monitor_status ≠ none) :=
  ⟨⟨⟨⟨⟨1, 1, 1⟩,
      [⟨123, "example.com", "ENABLE", "2021-03-28 11:27:09", "@", "默认", "0",
        "CNAME", none, none, none, 600, none, false⟩],
      "req-789012"⟩⟩, rfl, rfl, rfl, rfl, rfl⟩,
   ⟨⟨123, "example.com", "ENABLE", "2021-03-28 11:27:09", "@", "默认", "0",
      "CNAME", none, some "", none, 600, none, false⟩, rfl, rfl, by decide⟩⟩

/-- C10: each `with_X` builder method returns the receiver with exactly
field X set to `some` of the argument and every other field (including the
required `domain`) unchanged. -/
theorem with_methods_frame (r : DomainRecordList) (n₁ n₂ n₃ n₄ : Nat)
    (s₁ s₂ s₃ s₄ s₅ s₆ s₇ : String) :
    r.with_domain_id n₁ = { r with domain_id := some n₁ }
  ∧ r.with_subdomain s₁ = { r with subdomain := some s₁ }
  ∧ r.with_record_type s₂ = { r with record_type := some s₂ }
  ∧ r.with_record_line s₃ = { r with record_line := some s₃ }
  ∧ r.with_record_line_id s₄ = { r with record_line_id := some s₄ }
  ∧ r.with_group_id n₂ = { r with group_id := some n₂ }
  ∧ r.with_keyword s₅ = { r with keyword := some s₅ }
  ∧ r.with_sort_field s₆ = { r with sort_field := some s₆ }
  ∧ r.with_sort_type s₇ = { r with sort_type := some s₇ }
  ∧ r.with_offset n₃ = { r with offset := some n₃ }
  ∧ r.with_limit n₄ = { r with limit := some n₄ } :=
  ⟨rfl, rfl, rfl, rfl, rfl, rfl, rfl, rfl, rfl, rfl, rfl⟩

end TencentDns
